import Mathlib

/-!
Verification of the locationsharinglib core (session validation and
positional-data decoding) against its specification.

The embedding follows `src/locationsharinglib/locationsharinglib.py`.
JSON trees are modelled as the full domain `json.loads` produces: a
tagged variant over null / bool / number / string / array / object
(object keys are always strings after `json.loads`).  Python
subscripting on such a tree raises exactly `IndexError` (sequence index
out of range), `TypeError` (value not subscriptable / not iterable), or
`KeyError` (integer subscript on a dict, whose keys are all strings);
the error types below mirror this.  The module's handlers catch only
`IndexError` and `TypeError` (plus the module's own `InvalidData`), so a
`KeyError` always propagates.
-/

namespace Locationsharinglib

/-- A JSON value as decoded by `json.loads` from the remote envelope. -/
inductive JVal where
  | null
  | bool (b : Bool)
  | num (n : Int)
  | str (s : String)
  | arr (xs : List JVal)
  | obj (fields : List (String × JVal))
  deriving Repr

/-- Errors raised by Python subscripting / iteration over a `JVal`. -/
inductive IdxErr where
  | indexError
  | typeError
  | keyError
  deriving Repr, DecidableEq

/-- Errors raised inside `Service._get_data`'s parsing of the body. -/
inductive FetchErr where
  | indexError
  | valueError
  deriving Repr, DecidableEq

/-- Error raised by calling `.lower()` on a value with no such attribute. -/
inductive AttrErr where
  | attributeError
  deriving Repr, DecidableEq

/-- The exceptions that can escape `Person.__init__`: the deliberately
raised `InvalidData`, or an uncaught `KeyError` from subscripting a JSON
object (the `except (IndexError, TypeError)` handler does not catch it). -/
inductive DataErr where
  | invalidData
  | keyError
  deriving Repr, DecidableEq

/-- The `InvalidCookies` exception raised by `Authenticator._validate_cookie`. -/
inductive CookieErr where
  | invalidCookies
  deriving Repr, DecidableEq

/-- Python subscripting `v[i]` with the integer indices this module uses:
arrays and strings are subscriptable (strings yield one-character
strings) and out-of-range yields `IndexError`; a dict subscripted with an
integer raises `KeyError` (its `json.loads` keys are all strings); null,
booleans and numbers yield `TypeError`. -/
def jIndex : JVal → Nat → Except IdxErr JVal
  | .arr xs, i =>
    match xs.get? i with
    | some v => .ok v
    | none => .error .indexError
  | .str s, i =>
    match s.toList.get? i with
    | some c => .ok (.str (String.mk [c]))
    | none => .error .indexError
  | .obj _, _ => .error .keyError
  | _, _ => .error .typeError

/-- Python iteration `for x in v`: arrays yield their elements, strings
their characters (as one-character strings), dicts their keys; other
values raise `TypeError`. -/
def jIterate : JVal → Except IdxErr (List JVal)
  | .arr xs => .ok xs
  | .str s => .ok (s.toList.map fun c => .str (String.mk [c]))
  | .obj fields => .ok (fields.map fun kv => .str kv.1)
  | _ => .error .typeError

/-- Python truthiness of a JSON value. -/
def jTruthy : JVal → Bool
  | .null => false
  | .bool b => b
  | .num n => n != 0
  | .str s => s != ""
  | .arr xs => !xs.isEmpty
  | .obj fields => !fields.isEmpty

/-- Python `s.lower()` on a string, as a character-wise map. -/
def pyLower (s : String) : String := String.mk (s.toList.map Char.toLower)

/-- Python `v.lower()`: defined on strings, `AttributeError` otherwise. -/
def jLower : JVal → Except AttrErr String
  | .str s => .ok (pyLower s)
  | _ => .error .attributeError

/-- Double subscript `data[i][j]`. -/
def sub2 (data : JVal) (i j : Nat) : Except IdxErr JVal := do
  jIndex (← jIndex data i) j

/-- Triple subscript `data[i][j][k]`. -/
def sub3 (data : JVal) (i j k : Nat) : Except IdxErr JVal := do
  jIndex (← sub2 data i j) k

/-- The `try: ... except TypeError: None` wrapper used by `Person._populate`
for the optional charging / battery positions: a `TypeError` is converted to
`None`, while an `IndexError` propagates. -/
def catchType (x : Except IdxErr JVal) : Except IdxErr JVal :=
  match x with
  | .error .typeError => .ok .null
  | other => other

/-- The fields stored on a `Person` instance by `Person._populate`
(raw positional values, before any property accessor is applied). -/
structure Person where
  id_ : JVal
  picture_url : JVal
  full_name : JVal
  nickname : JVal
  latitude : JVal
  longitude : JVal
  timestamp : JVal
  accuracy : JVal
  address : JVal
  country_code : JVal
  charging : JVal
  battery_level : JVal
  deriving Repr

/-- The required positional reads of `Person._populate`, in source order:
`data[6][0..3]`, `data[1][1][2]`, `data[1][1][1]`, `data[1][2]`, `data[1][3]`,
`data[1][4]`, `data[1][6]`. -/
structure ReqFields where
  id_ : JVal
  picture_url : JVal
  full_name : JVal
  nickname : JVal
  latitude : JVal
  longitude : JVal
  timestamp : JVal
  accuracy : JVal
  address : JVal
  country_code : JVal
  deriving Repr

/-- The required part of `Person._populate` (everything outside the two
inner `try ... except TypeError` blocks). -/
def requiredFields (data : JVal) : Except IdxErr ReqFields := do
  let i ← sub2 data 6 0
  let pu ← sub2 data 6 1
  let fn ← sub2 data 6 2
  let nn ← sub2 data 6 3
  let la ← sub3 data 1 1 2
  let lo ← sub3 data 1 1 1
  let ts ← sub2 data 1 2
  let ac ← sub2 data 1 3
  let ad ← sub2 data 1 4
  let cc ← sub2 data 1 6
  .ok ⟨i, pu, fn, nn, la, lo, ts, ac, ad, cc⟩

/-- Body of `Person._populate` before its outer exception handler: the
required reads followed by the two optional reads `data[13][0]` and
`data[13][1]`, each individually guarded by `except TypeError: None`. -/
def populateRaw (data : JVal) : Except IdxErr Person := do
  let r ← requiredFields data
  let chg ← catchType (sub2 data 13 0)
  let bat ← catchType (sub2 data 13 1)
  .ok ⟨r.id_, r.picture_url, r.full_name, r.nickname, r.latitude, r.longitude,
       r.timestamp, r.accuracy, r.address, r.country_code, chg, bat⟩

/-- `Person._populate` / `Person.__init__`: an `IndexError` or `TypeError`
from the positional reads is converted to `InvalidData`; a `KeyError` is
not caught and propagates. -/
def populate (data : JVal) : Except DataErr Person :=
  match populateRaw data with
  | .ok p => .ok p
  | .error .indexError => .error .invalidData
  | .error .typeError => .error .invalidData
  | .error .keyError => .error .keyError

/-- The `id` property: `self._id or self.full_name` (Python `or`, so any
falsy stored id falls back to the full name). -/
def Person.id (p : Person) : JVal :=
  if jTruthy p.id_ then p.id_ else p.full_name

/-- The loop body of `Service.get_shared_people`: construct a `Person` from
each entry, dropping (with a debug log) exactly the entries that raise
`InvalidData`; an entry raising `KeyError` is not caught and aborts the
whole loop. -/
def collectPeople : List JVal → Except IdxErr (List Person)
  | [] => .ok []
  | info :: rest =>
    match populate info with
    | .ok p =>
      match collectPeople rest with
      | .ok ps => .ok (p :: ps)
      | .error e => .error e
    | .error .invalidData => collectPeople rest
    | .error .keyError => .error .keyError

/-- `Service.get_shared_people`: iterate `output[0]`; the subscript and the
iteration themselves are not guarded, so their errors propagate, as does a
`KeyError` from inside the loop. -/
def getSharedPeople (output : JVal) : Except IdxErr (List Person) := do
  let head ← jIndex output 0
  let infos ← jIterate head
  collectPeople infos

/-- Whether an entry decodes into a `Person` without raising `InvalidData`. -/
def decodesOk (e : JVal) : Bool :=
  match populate e with
  | .ok _ => true
  | .error _ => false

/-- Whether decoding an entry raises the uncaught `KeyError` (the entry
subscripts into a JSON object at one of the read positions). -/
def raisesKeyError (e : JVal) : Bool :=
  match populate e with
  | .error .keyError => true
  | _ => false

/-- An HTTP response as `Service._get_data` observes it: the `ok` flag and
the body text. -/
structure Response where
  ok : Bool
  text : String
  deriving Repr, DecidableEq

/-- The single-quote character on which `_get_data` splits the body. -/
def quoteChar : Char := Char.ofNat 39

/-- Python `s.split(c, 1)`: split at the first occurrence of `c` only;
if `c` does not occur the result is the one-element list `[s]`. -/
def splitOnce (c : Char) (s : String) : List String :=
  match s.toList.findIdx? (· = c) with
  | none => [s]
  | some i => [String.mk (s.toList.take i), String.mk (s.toList.drop (i + 1))]

/-- The parse step of `Service._get_data` on a successful response:
`json.loads(response.text.split(<quote>, 1)[1])`.  Taking element 1 of the
split raises `IndexError` when the body holds no quote (the anti-hijacking
marker is absent); a failed `json.loads` raises `ValueError`.  `jsonLoads`
abstracts the Python standard-library JSON parser. -/
def parseBody (jsonLoads : String → Option JVal) (text : String) :
    Except FetchErr JVal :=
  match (splitOnce quoteChar text).get? 1 with
  | none => .error .indexError
  | some rest =>
    match jsonLoads rest with
    | some v => .ok v
    | none => .error .valueError

/-- The `data = ['']` sentinel `_get_data` falls back to. -/
def emptyEnvelope : JVal := .arr [.str ""]

/-- `Service._get_data` after the HTTP call: on a non-ok status, log and
return `['']`; on an ok status, parse the body, and on any
`ValueError` / `IndexError` / `TypeError` log and return `['']`.
It never raises. -/
def getData (jsonLoads : String → Option JVal) (resp : Response) : JVal :=
  if resp.ok then
    match parseBody jsonLoads resp.text with
    | .ok d => d
    | .error _ => emptyEnvelope
  else
    emptyEnvelope

/-- The synthesized entry `Service.get_authenticated_person` builds around
`output[9][1]`: the account email at positions 0, 6.2 and 6.3, the location
block at position 1, `None` everywhere else (14 elements). -/
def authData (email : String) (o91 : JVal) : JVal :=
  .arr [.str email, o91, .null, .null, .null, .null,
        .arr [.null, .null, .str email, .str email],
        .null, .null, .null, .null, .null, .null, .null]

/-- `Service.get_authenticated_person`: read `output[9][1]`, build the
synthesized entry, construct a `Person` from it; an `IndexError`,
`TypeError` or `InvalidData` yields `None`, while a `KeyError` (a JSON
object at a read position) is not in the `except` clause and propagates. -/
def getAuthenticatedPerson (email : String) (output : JVal) :
    Except IdxErr (Option Person) :=
  match sub2 output 9 1 with
  | .error .indexError => .ok none
  | .error .typeError => .ok none
  | .error .keyError => .error .keyError
  | .ok o91 =>
    match populate (authData email o91) with
    | .ok p => .ok (some p)
    | .error .invalidData => .ok none
    | .error .keyError => .error .keyError

/-- `Service.get_all_people`: the shared people followed by the
authenticated person, with `filter(None, ...)` dropping a `None` result. -/
def getAllPeople (email : String) (output : JVal) :
    Except IdxErr (List Person) := do
  let shared ← getSharedPeople output
  let auth ← getAuthenticatedPerson email output
  .ok (shared ++ auth.toList)

/-- The shared lookup loop of `Service.get_person_by_nickname` /
`get_person_by_full_name`: scan the decoded people in order and return the
first whose selected field, lowered, equals the lowered query.  Calling
`.lower()` on a non-string field raises `AttributeError`. -/
def getPersonBy (f : Person → JVal) : List Person → String →
    Except AttrErr (Option Person)
  | [], _ => .ok none
  | p :: rest, q =>
    match jLower (f p) with
    | .error e => .error e
    | .ok s => if s = pyLower q then .ok (some p) else getPersonBy f rest q

/-- `Service.get_person_by_nickname` over an already-decoded list. -/
def getPersonByNickname (people : List Person) (q : String) :
    Except AttrErr (Option Person) :=
  getPersonBy (fun p => p.nickname) people q

/-- `Service.get_person_by_full_name` over an already-decoded list. -/
def getPersonByFullName (people : List Person) (q : String) :
    Except AttrErr (Option Person) :=
  getPersonBy (fun p => p.full_name) people q

/-- `Service.get_coordinates_by_nickname`: `('', '')` when no person is
found, the person's latitude and longitude otherwise. -/
def getCoordinatesByNickname (people : List Person) (q : String) :
    Except AttrErr (JVal × JVal) :=
  match getPersonByNickname people q with
  | .error e => .error e
  | .ok none => .ok (.str "", .str "")
  | .ok (some p) => .ok (p.latitude, p.longitude)

/-- `Service.get_coordinates_by_full_name`: `('', '')` when no person is
found, the person's latitude and longitude otherwise. -/
def getCoordinatesByFullName (people : List Person) (q : String) :
    Except AttrErr (JVal × JVal) :=
  match getPersonByFullName people q with
  | .error e => .error e
  | .ok none => .ok (.str "", .str "")
  | .ok (some p) => .ok (p.latitude, p.longitude)

/-- The Boolean match predicate realized by `getPersonBy` on all-string
fields: used to state first-match-wins via `List.find?`. -/
def matchesBy (f : Person → JVal) (q : String) (p : Person) : Bool :=
  match f p with
  | .str s => pyLower s == pyLower q
  | _ => false

/-- `STATE_CACHING_SECONDS = 30`. -/
def STATE_CACHING_SECONDS : Nat := 30

/-- Result of one pass through the `@cached(STATE_CACHE)` wrapper around
`_get_data`: the returned envelope, the cache state after the call, and
whether a remote fetch was performed. -/
structure CacheStep where
  value : JVal
  state : Option (Nat × JVal × Nat)
  fetched : Bool
  deriving Repr

/-- Modelled from the cachetools library used at `@cached(STATE_CACHE)`
with `STATE_CACHE = TTLCache(maxsize=1, ttl=STATE_CACHING_SECONDS)`:
a single slot holds (key, envelope, store time); a lookup hits while
`now ≤ storeTime + ttl` (TTLCache drops a link once `expire < timer()`);
on a miss the wrapped `_get_data` body runs and its result replaces the
slot.  `key` abstracts `hashkey(self)`; `fetch` abstracts the HTTP body of
`_get_data`. -/
def cachedGetData (fetch : Nat → JVal) (key : Nat) (now : Nat)
    (st : Option (Nat × JVal × Nat)) : CacheStep :=
  match st with
  | some (k, v, t) =>
    if k = key ∧ now ≤ t + STATE_CACHING_SECONDS then
      ⟨v, st, false⟩
    else
      ⟨fetch now, some (key, fetch now, now), true⟩
  | none => ⟨fetch now, some (key, fetch now, now), true⟩

/-- Outcome of `pickle.load` on the cookies file in
`Authenticator._validate_cookie`: a cookie jar (name/value pairs), or the
`KeyError` / `IOError` failures the method handles. -/
inductive PickleLoad where
  | ok (jar : List (String × String))
  | keyError
  | ioError
  deriving Repr, DecidableEq

/-- Whether `needle` occurs in `hay` (the Python `in` operator on str). -/
def strContains (hay needle : String) : Bool :=
  (List.range (hay.toList.length + 1)).any
    fun i => needle.toList.isPrefixOf (hay.toList.drop i)

/-- The marker whose presence in the probe response shows the session is
anonymous. -/
def signInMarker : String := "Sign in - Google Accounts"

/-- `Authenticator._validate_cookie`: a `KeyError` or `IOError` while
unpickling returns `False` with no network access; otherwise the cookies
are installed and one GET against the login URL is issued — if its body
holds the sign-in marker, `InvalidCookies` is raised, else the method
returns `True`.  The second component counts network requests performed. -/
def validateCookie (load : PickleLoad) (probeText : String) :
    Except CookieErr Bool × Nat :=
  match load with
  | .keyError => (.ok false, 0)
  | .ioError => (.ok false, 0)
  | .ok _ =>
    if strContains probeText signInMarker then
      (.error .invalidCookies, 1)
    else
      (.ok true, 1)

/-- Values that Python refuses to subscript (`TypeError`). -/
def nonSubscript : JVal → Bool
  | .null => true
  | .bool _ => true
  | .num _ => true
  | _ => false

/-- The shape check `get_authenticated_person` implicitly performs on
`output[9][1]`: the synthesized entry places it at position 1, so
`_populate` reads positions `[1][2]`, `[1][1]`, `[2]`, `[3]`, `[4]`, `[6]`
of it. -/
def locOk (v : JVal) : Bool :=
  (sub2 v 1 2).isOk && (sub2 v 1 1).isOk && (jIndex v 2).isOk &&
  (jIndex v 3).isOk && (jIndex v 4).isOk && (jIndex v 6).isOk

/-- A well-formed coordinate block (position 1 of an entry). -/
def sampleLoc : JVal :=
  .arr [.null, .arr [.null, .num 5, .num 6], .num 1000, .num 10,
        .str "addr", .null, .str "NL"]

/-- A well-formed identity block (position 6 of an entry). -/
def sampleIdBlock : JVal :=
  .arr [.str "id1", .str "url", .str "Alice Smith", .str "alice"]

/-- A fully well-formed entry whose optional position 13 is null. -/
def sampleEntry : JVal :=
  .arr [.null, sampleLoc, .null, .null, .null, .null, sampleIdBlock,
        .null, .null, .null, .null, .null, .null, .null]

/-- An entry with all required positions well-formed but only 13 elements,
so position 13 is missing entirely. -/
def sampleEntryShort : JVal :=
  .arr [.null, sampleLoc, .null, .null, .null, .null, sampleIdBlock,
        .null, .null, .null, .null, .null, .null]

/-- The required fields decoded from `sampleEntry` / `sampleEntryShort`. -/
def sampleReq : ReqFields :=
  ⟨.str "id1", .str "url", .str "Alice Smith", .str "alice", .num 6,
   .num 5, .num 1000, .num 10, .str "addr", .str "NL"⟩

/-- The `Person` decoded from `sampleEntry`. -/
def samplePerson : Person :=
  ⟨.str "id1", .str "url", .str "Alice Smith", .str "alice", .num 6,
   .num 5, .num 1000, .num 10, .str "addr", .str "NL", .null, .null⟩

/-- An identity block whose nickname position holds null. -/
def nullNickIdBlock : JVal :=
  .arr [.str "id2", .str "url2", .str "Bob Jones", .null]

/-- A well-formed entry whose decoded nickname is null. -/
def nullNickEntry : JVal :=
  .arr [.null, sampleLoc, .null, .null, .null, .null, nullNickIdBlock,
        .null, .null, .null, .null, .null, .null, .null]

/-- The `Person` decoded from `nullNickEntry`. -/
def nullNickPerson : Person :=
  ⟨.str "id2", .str "url2", .str "Bob Jones", .null, .num 6, .num 5,
   .num 1000, .num 10, .str "addr", .str "NL", .null, .null⟩

/-- An envelope whose index 9 holds `[null, null]`: position 1 of index 9
is present but is null. -/
def authEnvBad : JVal :=
  .arr [.null, .null, .null, .null, .null, .null, .null, .null, .null,
        .arr [.null, .null]]

/-- An envelope whose index 9 holds `[null, sampleLoc]`: position 1 of
index 9 is a well-formed coordinate block. -/
def authEnvGood : JVal :=
  .arr [.null, .null, .null, .null, .null, .null, .null, .null, .null,
        .arr [.null, sampleLoc]]

/-- A non-subscriptable value raises `TypeError` at any index. -/
theorem jIndex_nonSubscript (v : JVal) (i : Nat) (h : nonSubscript v = true) :
    jIndex v i = .error .typeError := by
  cases v <;> simp_all [nonSubscript, jIndex]

/-- A successful `Except` carries a value. -/
theorem exists_of_isOk {ε α : Type} {x : Except ε α} (h : x.isOk = true) :
    ∃ a, x = .ok a := by
  cases x with
  | ok a => exact ⟨a, rfl⟩
  | error e => simp [Except.isOk, Except.toBool] at h

/-- C1 counterexample: a success response whose body lacks the
anti-hijacking quote makes the parse step fail with `IndexError`, yet
`_get_data` returns the `['']` sentinel — it does not raise (the code has
no `InvalidEnvelope` exception at all). -/
theorem c1_counterexample :
    parseBody (fun _ => none) "garbage" = .error .indexError ∧
    getData (fun _ => none) ⟨true, "garbage"⟩ = emptyEnvelope :=
  ⟨rfl, rfl⟩

/-- C1 (amended): for every success response whose body lacks the expected
prefix or whose remainder is not parseable JSON, `Service._get_data`
catches the failure, logs it, and returns the `['']` empty-envelope
sentinel instead of raising. -/
theorem c1_fetch_failure_returns_sentinel
    (jsonLoads : String → Option JVal) (resp : Response) (e : FetchErr)
    (hok : resp.ok = true)
    (hfail : parseBody jsonLoads resp.text = .error e) :
    getData jsonLoads resp = emptyEnvelope := by
  simp [getData, hok, hfail]

/-- C1 witness: the amended theorem applied to a concrete success response
with no quote in the body. -/
theorem c1_witness :
    (Response.mk true "garbage").ok = true ∧
    parseBody (fun _ => none) (Response.mk true "garbage").text =
      .error .indexError ∧
    getData (fun _ => none) (Response.mk true "garbage") = emptyEnvelope :=
  ⟨rfl, rfl,
    c1_fetch_failure_returns_sentinel (fun _ => none)
      (Response.mk true "garbage") .indexError rfl rfl⟩

/-- C3 counterexample: an envelope whose index 0 is null makes
`Service.get_shared_people` raise `TypeError` (iterating `None`), rather
than returning an empty collection. -/
theorem c3_counterexample :
    getSharedPeople (.arr [.null]) = .error .typeError := rfl

/-- C3 (amended): for every envelope whose index 0 is an empty list,
`Service.get_shared_people` returns the empty collection without raising;
a null index 0, however, raises `TypeError` (see the counterexample). -/
theorem c3_empty_list_gives_empty (rest : List JVal) :
    getSharedPeople (.arr (JVal.arr [] :: rest)) = .ok [] := rfl

/-- C8: for every non-success HTTP response, `Service._get_data` returns
the `['']` empty-envelope sentinel without raising, and decoding that
sentinel through `Service.get_shared_people` yields zero people. -/
theorem c8_failure_sentinel_decodes_empty
    (jsonLoads : String → Option JVal) (resp : Response)
    (h : resp.ok = false) :
    getData jsonLoads resp = emptyEnvelope ∧
    getSharedPeople emptyEnvelope = .ok [] := by
  refine ⟨?_, rfl⟩
  simp [getData, h]

/-- C8 witness: the theorem applied to a concrete non-success response. -/
theorem c8_witness :
    (Response.mk false "Service Unavailable").ok = false ∧
    (getData (fun _ => none) (Response.mk false "Service Unavailable") =
       emptyEnvelope ∧
     getSharedPeople emptyEnvelope = .ok []) :=
  ⟨rfl, c8_failure_sentinel_decodes_empty (fun _ => none)
    (Response.mk false "Service Unavailable") rfl⟩

/-- Over entries none of which raise `KeyError`, the decode loop returns
exactly the decodable entries, in order. -/
theorem collectPeople_ok (entries : List JVal)
    (h : (entries.all fun e => !raisesKeyError e) = true) :
    ∃ people, collectPeople entries = .ok people ∧
      people.length = entries.countP decodesOk := by
  induction entries with
  | nil => exact ⟨[], rfl, rfl⟩
  | cons e es ih =>
    rw [List.all_cons, Bool.and_eq_true] at h
    obtain ⟨he, hes⟩ := h
    obtain ⟨ps, hps, hlen⟩ := ih hes
    cases hp : populate e with
    | ok p =>
      exact ⟨p :: ps, by simp [collectPeople, hp, hps],
        by simp [List.countP_cons, decodesOk, hp, hlen]⟩
    | error err =>
      cases err with
      | invalidData =>
        exact ⟨ps, by simp [collectPeople, hp, hps],
          by simp [List.countP_cons, decodesOk, hp, hlen]⟩
      | keyError => simp [raisesKeyError, hp] at he

/-- C2 counterexample: an index-0 list containing a JSON-object entry
makes `get_shared_people` raise `KeyError` — uncaught by the loop's
`except InvalidData` — aborting the whole call even though a well-formed
entry precedes the malformed one. -/
theorem c2_counterexample :
    populate (.obj []) = .error .keyError ∧
    getSharedPeople (.arr [.arr [sampleEntry, .obj []], .null]) =
      .error .keyError :=
  ⟨rfl, rfl⟩

/-- C2 (amended): for every envelope whose index-0 list mixes well-formed
and malformed entries, provided no entry's positional reads hit a JSON
object (no `KeyError`), `get_shared_people` returns without raising a
collection whose size equals the number of well-formed entries — each
entry raising `InvalidData` is dropped individually and decoding
continues; an entry raising `KeyError`, however, aborts the whole call
(see the counterexample). -/
theorem c2_mixed_entries_decode_individually (entries rest : List JVal)
    (h : (entries.all fun e => !raisesKeyError e) = true) :
    ∃ people,
      getSharedPeople (.arr (JVal.arr entries :: rest)) = .ok people ∧
      people.length = entries.countP decodesOk := by
  obtain ⟨ps, hps, hlen⟩ := collectPeople_ok entries h
  exact ⟨ps, hps, hlen⟩

/-- C2 witness: the amended theorem applied to one well-formed entry and
one entry that is dropped with `InvalidData`. -/
theorem c2_witness :
    ([sampleEntry, sampleEntryShort].all fun e => !raisesKeyError e) =
      true ∧
    (∃ people,
      getSharedPeople (.arr [.arr [sampleEntry, sampleEntryShort]]) =
        .ok people ∧
      people.length = [sampleEntry, sampleEntryShort].countP decodesOk) :=
  ⟨rfl,
    c2_mixed_entries_decode_individually [sampleEntry, sampleEntryShort]
      [] rfl⟩

/-- C5 counterexample: an entry whose required positions all decode but
which has no position 13 at all is not decoded with unknown
charging/battery — the `IndexError` escapes the `except TypeError` guard
and the entry is dropped with `InvalidData`. -/
theorem c5_counterexample :
    requiredFields sampleEntryShort = .ok sampleReq ∧
    populate sampleEntryShort = .error .invalidData :=
  ⟨rfl, rfl⟩

/-- C5 (amended): for every entry whose required positions decode and
whose position 13 is present but null or otherwise non-subscriptable
(`TypeError`), decoding succeeds with charging and battery level stored as
null; a missing or too-short position 13 (`IndexError`) instead drops the
entry (see the counterexample). -/
theorem c5_optional_nonsubscript_ok (data v : JVal) (r : ReqFields)
    (hreq : requiredFields data = .ok r)
    (h13 : jIndex data 13 = .ok v)
    (hns : nonSubscript v = true) :
    populate data = .ok ⟨r.id_, r.picture_url, r.full_name, r.nickname,
      r.latitude, r.longitude, r.timestamp, r.accuracy, r.address,
      r.country_code, .null, .null⟩ := by
  have h0 : sub2 data 13 0 = .error .typeError := by
    simp [sub2, h13, jIndex_nonSubscript v 0 hns, Bind.bind, Except.bind]
  have h1 : sub2 data 13 1 = .error .typeError := by
    simp [sub2, h13, jIndex_nonSubscript v 1 hns, Bind.bind, Except.bind]
  simp [populate, populateRaw, hreq, h0, h1, catchType, Bind.bind,
    Except.bind]

/-- C5 witness: the amended theorem applied to a concrete entry whose
position 13 is null. -/
theorem c5_witness :
    requiredFields sampleEntry = .ok sampleReq ∧
    jIndex sampleEntry 13 = .ok .null ∧
    nonSubscript .null = true ∧
    populate sampleEntry = .ok samplePerson :=
  ⟨rfl, rfl, rfl,
    c5_optional_nonsubscript_ok sampleEntry .null sampleReq rfl rfl rfl⟩

/-- The lookup loop only compares lowered strings, so two queries with the
same lowering traverse the decoded list identically. -/
theorem getPersonBy_congr (f : Person → JVal) (people : List Person)
    (q1 q2 : String) (h : pyLower q1 = pyLower q2) :
    getPersonBy f people q1 = getPersonBy f people q2 := by
  induction people with
  | nil => rfl
  | cons p rest ih =>
    cases hl : jLower (f p) <;> simp [getPersonBy, hl, h, ih]

/-- C7: lookups by nickname and by full name are case-insensitive: any two
query strings with the same lowering produce the same result. -/
theorem c7_lookup_case_insensitive (people : List Person) (q1 q2 : String)
    (h : pyLower q1 = pyLower q2) :
    getPersonByNickname people q1 = getPersonByNickname people q2 ∧
    getPersonByFullName people q1 = getPersonByFullName people q2 :=
  ⟨getPersonBy_congr _ people q1 q2 h, getPersonBy_congr _ people q1 q2 h⟩

/-- C7 witness: the theorem applied to the queries "Alice" and "alice"
over a concrete decoded person. -/
theorem c7_witness :
    pyLower "Alice" = pyLower "alice" ∧
    (getPersonByNickname [samplePerson] "Alice" =
       getPersonByNickname [samplePerson] "alice" ∧
     getPersonByFullName [samplePerson] "Alice" =
       getPersonByFullName [samplePerson] "alice") :=
  ⟨rfl, c7_lookup_case_insensitive [samplePerson] "Alice" "alice" rfl⟩

/-- C4: starting from an empty cache slot, a second `_get_data` call by the
same instance within the 30-second TTL window performs no second fetch and
observes the first call's stored envelope unchanged, while a call after
the window has elapsed performs a fresh fetch that replaces the entry. -/
theorem c4_cache_ttl (fetch : Nat → JVal) (key t1 t2 : Nat) :
    (t2 < t1 + STATE_CACHING_SECONDS →
      (cachedGetData fetch key t1 none).fetched = true ∧
      (cachedGetData fetch key t2
        (cachedGetData fetch key t1 none).state).fetched = false ∧
      (cachedGetData fetch key t2
        (cachedGetData fetch key t1 none).state).value =
        (cachedGetData fetch key t1 none).value ∧
      (cachedGetData fetch key t2
        (cachedGetData fetch key t1 none).state).state =
        (cachedGetData fetch key t1 none).state) ∧
    (t1 + STATE_CACHING_SECONDS < t2 →
      (cachedGetData fetch key t2
        (cachedGetData fetch key t1 none).state).fetched = true ∧
      (cachedGetData fetch key t2
        (cachedGetData fetch key t1 none).state).state =
        some (key, fetch t2, t2)) := by
  have h1 : cachedGetData fetch key t1 none =
      ⟨fetch t1, some (key, fetch t1, t1), true⟩ := rfl
  rw [h1]
  constructor
  · intro hin
    have hc : key = key ∧ t2 ≤ t1 + STATE_CACHING_SECONDS :=
      ⟨rfl, Nat.le_of_lt hin⟩
    simp [cachedGetData, hc]
  · intro hout
    have hle : ¬t2 ≤ t1 + STATE_CACHING_SECONDS := by omega
    simp [cachedGetData, hle]

/-- C4 witness: the theorem applied with the first call at time 0, a hit
at time 10 and a fresh fetch at time 100. -/
theorem c4_witness :
    10 < 0 + STATE_CACHING_SECONDS ∧
    ((cachedGetData (fun _ => emptyEnvelope) 0 0 none).fetched = true ∧
     (cachedGetData (fun _ => emptyEnvelope) 0 10
       (cachedGetData (fun _ => emptyEnvelope) 0 0 none).state).fetched =
       false ∧
     (cachedGetData (fun _ => emptyEnvelope) 0 10
       (cachedGetData (fun _ => emptyEnvelope) 0 0 none).state).value =
       (cachedGetData (fun _ => emptyEnvelope) 0 0 none).value ∧
     (cachedGetData (fun _ => emptyEnvelope) 0 10
       (cachedGetData (fun _ => emptyEnvelope) 0 0 none).state).state =
       (cachedGetData (fun _ => emptyEnvelope) 0 0 none).state) ∧
    0 + STATE_CACHING_SECONDS < 100 ∧
    ((cachedGetData (fun _ => emptyEnvelope) 0 100
       (cachedGetData (fun _ => emptyEnvelope) 0 0 none).state).fetched =
       true ∧
     (cachedGetData (fun _ => emptyEnvelope) 0 100
       (cachedGetData (fun _ => emptyEnvelope) 0 0 none).state).state =
       some (0, emptyEnvelope, 100)) :=
  ⟨by decide,
   (c4_cache_ttl (fun _ => emptyEnvelope) 0 0 10).1 (by decide),
   by decide,
   (c4_cache_ttl (fun _ => emptyEnvelope) 0 0 100).2 (by decide)⟩

/-- Over people whose selected field is a string, the lookup loop returns
exactly `List.find?` of the match predicate: first match wins and no
exception is possible. -/
theorem getPersonBy_str (f : Person → JVal) (people : List Person)
    (q : String) (h : ∀ p ∈ people, ∃ s, f p = JVal.str s) :
    getPersonBy f people q = .ok (people.find? (matchesBy f q)) := by
  induction people with
  | nil => rfl
  | cons p rest ih =>
    obtain ⟨s, hs⟩ := h p (List.mem_cons_self p rest)
    have hrest := ih (fun p hp => h p (List.mem_cons_of_mem _ hp))
    by_cases hc : pyLower s = pyLower q
    · simp [getPersonBy, jLower, hs, hc, matchesBy, List.find?]
    · have hb : (pyLower s == pyLower q) = false := by simp [hc]
      simp [getPersonBy, jLower, hs, hc, matchesBy, List.find?, hb, hrest]

/-- C6 counterexample: a decoded person whose nickname is null (a
well-formed entry can produce one) makes the nickname lookups raise
`AttributeError` (`None.lower()`), instead of never raising. -/
theorem c6_counterexample :
    populate nullNickEntry = .ok nullNickPerson ∧
    getPersonByNickname [nullNickPerson] "anyone" = .error .attributeError ∧
    getCoordinatesByNickname [nullNickPerson] "anyone" =
      .error .attributeError :=
  ⟨rfl, rfl, rfl⟩

/-- C6 (amended): over any decoded set whose nicknames and full names are
all strings, the entity lookups return the first case-insensitive match in
decoded order and `none` when there is no match, the coordinate lookups
return `('', '')` when there is no match, and none of them raises. -/
theorem c6_lookup_sentinels (people : List Person) (q : String)
    (hnick : ∀ p ∈ people, ∃ s, p.nickname = JVal.str s)
    (hname : ∀ p ∈ people, ∃ s, p.full_name = JVal.str s) :
    getPersonByNickname people q =
      .ok (people.find? (matchesBy (fun p => p.nickname) q)) ∧
    getPersonByFullName people q =
      .ok (people.find? (matchesBy (fun p => p.full_name) q)) ∧
    (people.find? (matchesBy (fun p => p.nickname) q) = none →
      getCoordinatesByNickname people q = .ok (.str "", .str "")) ∧
    (people.find? (matchesBy (fun p => p.full_name) q) = none →
      getCoordinatesByFullName people q = .ok (.str "", .str "")) := by
  have hn := getPersonBy_str (fun p => p.nickname) people q hnick
  have hf := getPersonBy_str (fun p => p.full_name) people q hname
  refine ⟨hn, hf, ?_, ?_⟩
  · intro hnone
    simp [getCoordinatesByNickname, getPersonByNickname, hn, hnone]
  · intro hnone
    simp [getCoordinatesByFullName, getPersonByFullName, hf, hnone]

/-- C6 witness: the amended theorem applied to a concrete decoded person
and a query matching nobody. -/
theorem c6_witness :
    getPersonByNickname [samplePerson] "zzz" = .ok none ∧
    getPersonByFullName [samplePerson] "zzz" = .ok none ∧
    getCoordinatesByNickname [samplePerson] "zzz" = .ok (.str "", .str "") ∧
    getCoordinatesByFullName [samplePerson] "zzz" = .ok (.str "", .str "") := by
  have h1 : ∀ p ∈ [samplePerson], ∃ s, Person.nickname p = JVal.str s := by
    intro p hp
    rw [List.mem_singleton] at hp
    subst hp
    exact ⟨"alice", rfl⟩
  have h2 : ∀ p ∈ [samplePerson], ∃ s, Person.full_name p = JVal.str s := by
    intro p hp
    rw [List.mem_singleton] at hp
    subst hp
    exact ⟨"Alice Smith", rfl⟩
  obtain ⟨a, b, c, d⟩ := c6_lookup_sentinels [samplePerson] "zzz" h1 h2
  exact ⟨a, b, c rfl, d rfl⟩

/-- C9 counterexample: a cookie jar holding no session-identity cookie of
any kind is accepted: validation returns `True` after one network probe.
There is no cookie-name whitelist and no `MissingSessionCredential` in the
code. -/
theorem c9_counterexample :
    validateCookie (.ok [("foo", "bar")]) "Welcome" = (.ok true, 1) := rfl

/-- C9 (amended): `_validate_cookie` never checks cookie names: an
unreadable or corrupt pickle returns `False` with no network call (falling
back to password login); any successfully loaded jar triggers exactly one
network probe, raising `InvalidCookies` when the probe shows an anonymous
session and returning `True` otherwise. -/
theorem c9_validate_cookie_behavior (load : PickleLoad) (probe : String) :
    (load = .keyError ∨ load = .ioError →
      validateCookie load probe = (.ok false, 0)) ∧
    (∀ jar, load = .ok jar →
      (validateCookie load probe).2 = 1 ∧
      (strContains probe signInMarker = true →
        (validateCookie load probe).1 = .error .invalidCookies) ∧
      (strContains probe signInMarker = false →
        (validateCookie load probe).1 = .ok true)) := by
  constructor
  · rintro (rfl | rfl) <;> rfl
  · rintro jar rfl
    cases h : strContains probe signInMarker <;> simp [validateCookie, h]

/-- C9 witness: the amended theorem applied to a concrete loaded jar and a
probe response without the sign-in marker. -/
theorem c9_witness :
    strContains "Welcome" signInMarker = false ∧
    (validateCookie (.ok [("session", "junk")]) "Welcome").2 = 1 ∧
    (validateCookie (.ok [("session", "junk")]) "Welcome").1 = .ok true := by
  have h := (c9_validate_cookie_behavior (.ok [("session", "junk")])
    "Welcome").2 [("session", "junk")] rfl
  exact ⟨rfl, h.1, h.2.2 rfl⟩

/-- When `output[9][1]` is a well-shaped location block, the synthesized
entry of `get_authenticated_person` decodes into a `Person` made of the
account email, null identity slots and the block's coordinates. -/
theorem populate_authData (email : String) (o91 la lo ts ac ad cc : JVal)
    (h1 : sub2 o91 1 2 = .ok la) (h2 : sub2 o91 1 1 = .ok lo)
    (h3 : jIndex o91 2 = .ok ts) (h4 : jIndex o91 3 = .ok ac)
    (h5 : jIndex o91 4 = .ok ad) (h6 : jIndex o91 6 = .ok cc) :
    populate (authData email o91) =
      .ok ⟨.null, .null, .str email, .str email, la, lo, ts, ac, ad, cc,
           .null, .null⟩ := by
  have e1 : sub3 (authData email o91) 1 1 2 = sub2 o91 1 2 := rfl
  have e2 : sub3 (authData email o91) 1 1 1 = sub2 o91 1 1 := rfl
  have e3 : sub2 (authData email o91) 1 2 = jIndex o91 2 := rfl
  have e4 : sub2 (authData email o91) 1 3 = jIndex o91 3 := rfl
  have e5 : sub2 (authData email o91) 1 4 = jIndex o91 4 := rfl
  have e6 : sub2 (authData email o91) 1 6 = jIndex o91 6 := rfl
  have e7 : sub2 (authData email o91) 6 0 = .ok .null := rfl
  have e8 : sub2 (authData email o91) 6 1 = .ok .null := rfl
  have e9 : sub2 (authData email o91) 6 2 = .ok (.str email) := rfl
  have e10 : sub2 (authData email o91) 6 3 = .ok (.str email) := rfl
  have e11 : sub2 (authData email o91) 13 0 = .error .typeError := rfl
  have e12 : sub2 (authData email o91) 13 1 = .error .typeError := rfl
  have hreq : requiredFields (authData email o91) =
      .ok ⟨.null, .null, .str email, .str email, la, lo, ts, ac, ad, cc⟩ := by
    simp only [requiredFields, e1, e2, e3, e4, e5, e6, e7, e8, e9, e10,
      h1, h2, h3, h4, h5, h6, Bind.bind, Except.bind]
  simp [populate, populateRaw, hreq, e11, e12, catchType, Bind.bind,
    Except.bind]

/-- C10 counterexample: an envelope whose index 9 has position 1 present
but null makes `get_authenticated_person` return `None`, not a `Person`
carrying the account email; and an envelope that is a JSON object — so
index 9 is "missing" — raises `KeyError` instead of returning `None`. -/
theorem c10_counterexample :
    sub2 authEnvBad 9 1 = .ok .null ∧
    getAuthenticatedPerson "user@example.com" authEnvBad = .ok none ∧
    getAuthenticatedPerson "user@example.com" (.obj []) =
      .error .keyError :=
  ⟨rfl, rfl, rfl⟩

/-- C10 (amended): when `output[9][1]` is present and is a well-shaped
location block, `get_authenticated_person` returns a `Person` whose full
name and nickname are the account email, whose stored id is null and
whose `id` accessor therefore falls back to the email; when the read of
`output[9][1]` fails with `IndexError` or `TypeError`, or the synthesized
entry fails to decode with `InvalidData`, it returns `None` without
raising; but a `KeyError` (a JSON object hit by either read) is not in
the `except` clause and propagates. -/
theorem c10_authenticated_person (email : String) (output : JVal) :
    (∀ o91, sub2 output 9 1 = .ok o91 → locOk o91 = true →
      ∃ p, getAuthenticatedPerson email output = .ok (some p) ∧
        p.full_name = .str email ∧ p.nickname = .str email ∧
        p.id_ = .null ∧ Person.id p = .str email) ∧
    (∀ e, sub2 output 9 1 = .error e →
      e = .indexError ∨ e = .typeError →
      getAuthenticatedPerson email output = .ok none) ∧
    (∀ o91, sub2 output 9 1 = .ok o91 →
      populate (authData email o91) = .error .invalidData →
      getAuthenticatedPerson email output = .ok none) ∧
    (sub2 output 9 1 = .error .keyError →
      getAuthenticatedPerson email output = .error .keyError) ∧
    (∀ o91, sub2 output 9 1 = .ok o91 →
      populate (authData email o91) = .error .keyError →
      getAuthenticatedPerson email output = .error .keyError) := by
  refine ⟨?_, ?_, ?_, ?_, ?_⟩
  · intro o91 h91 hloc
    simp only [locOk, Bool.and_eq_true] at hloc
    obtain ⟨⟨⟨⟨⟨hla, hlo⟩, hts⟩, hac⟩, had⟩, hcc⟩ := hloc
    obtain ⟨la, hla⟩ := exists_of_isOk hla
    obtain ⟨lo, hlo⟩ := exists_of_isOk hlo
    obtain ⟨ts, hts⟩ := exists_of_isOk hts
    obtain ⟨ac, hac⟩ := exists_of_isOk hac
    obtain ⟨ad, had⟩ := exists_of_isOk had
    obtain ⟨cc, hcc⟩ := exists_of_isOk hcc
    have hp := populate_authData email o91 la lo ts ac ad cc
      hla hlo hts hac had hcc
    refine ⟨⟨.null, .null, .str email, .str email, la, lo, ts, ac, ad, cc,
      .null, .null⟩, ?_, rfl, rfl, rfl, rfl⟩
    simp [getAuthenticatedPerson, h91, hp]
  · rintro e h (rfl | rfl) <;> simp [getAuthenticatedPerson, h]
  · intro o91 h91 hp
    simp [getAuthenticatedPerson, h91, hp]
  · intro h
    simp [getAuthenticatedPerson, h]
  · intro o91 h91 hp
    simp [getAuthenticatedPerson, h91, hp]

/-- C10 witness: the amended theorem applied to a concrete envelope whose
index 9 position 1 is a well-shaped location block. -/
theorem c10_witness :
    sub2 authEnvGood 9 1 = .ok sampleLoc ∧
    locOk sampleLoc = true ∧
    (∃ p, getAuthenticatedPerson "user@example.com" authEnvGood =
        .ok (some p) ∧
      p.full_name = .str "user@example.com" ∧
      p.nickname = .str "user@example.com" ∧
      p.id_ = .null ∧ Person.id p = .str "user@example.com") :=
  ⟨rfl, rfl,
    (c10_authenticated_person "user@example.com" authEnvGood).1
      sampleLoc rfl rfl⟩

end Locationsharinglib
